import Mathlib

/-!
Verification of the dropcam client (src/dropcam.py), a thin wrapper around a
cloud camera vendor HTTP API.  The Python module is shallowly embedded:

* JSON values (what `json.loads` produces) are the inductive `JVal`;
* response bodies are `Body`: a body that is valid JSON is modelled by its
  parsed value (`Body.json v`), any other body (e.g. image bytes) by its raw
  octets (`Body.raw bs`), so `json.loads` becomes the total function
  `jsonLoads`;
* the network is an oracle `net : HttpRequest → HttpResponse` mapping the
  single request a call issues to the vendor response;
* Python exceptions are the `PyErr` inductive, and every fallible operation
  returns `Except PyErr _`; methods additionally return the list of HTTP
  requests they issued and (for methods on mutable objects) the object after
  the call.
-/

/-- A parsed JSON value.  Python `None` (JSON `null`) and an absent value are
both `JVal.null`, exactly as both are `None` in the Python source. -/
inductive JVal where
  | null : JVal
  | bool : Bool → JVal
  | num : Int → JVal
  | str : String → JVal
  | arr : List JVal → JVal
  | obj : List (String × JVal) → JVal


/-- An HTTP response body: JSON bodies are modelled at parse level, opaque
bodies (images) by their bytes. -/
inductive Body where
  | json : JVal → Body
  | raw : List Nat → Body


/-- Python exceptions raised by the embedded code. `exc args` is a plain
`Exception(*args)`; `connectionError` is the module's ConnectionError. -/
inductive PyErr where
  | exc : List JVal → PyErr
  | connectionError : String → PyErr
  | nameError : String → PyErr
  | typeError : PyErr
  | indexError : PyErr
  | attributeError : PyErr
  | valueError : PyErr


/-- `json.loads` on a body: succeeds exactly on JSON bodies, raising the
decode error otherwise. -/
def jsonLoads : Body → Except PyErr JVal
  | .json v => .ok v
  | .raw _ => .error .valueError
/-- Looking a key up in a parsed JSON object, as Python `dict.get(key)` does:
the value if present, `None` (that is, `JVal.null`) if absent. -/
def alistFind : List (String × JVal) → String → JVal
  | [], _ => .null
  | (k, v) :: rest, key => if k = key then v else alistFind rest key

/-- Python `x.get(key)`: dictionary lookup with `None` default; on a value
that is not a dictionary the attribute access itself raises AttributeError. -/
def pyGet : JVal → String → Except PyErr JVal
  | .obj fields, key => .ok (alistFind fields key)
  | _, _ => .error .attributeError

/-- Python `x[i]` for a non-negative index: list indexing (IndexError when out
of range); subscripting a non-sequence raises TypeError. -/
def pySubscript (v : JVal) (i : Nat) : Except PyErr JVal :=
  match v with
  | .arr xs =>
    match xs.get? i with
    | some x => .ok x
    | none => .error .indexError
  | _ => .error .typeError

/-- Python `for x in v`: iterating a JSON array yields its elements in order;
iterating `None` or a scalar raises TypeError. -/
def pyIter (v : JVal) : Except PyErr (List JVal) :=
  match v with
  | .arr xs => .ok xs
  | _ => .error .typeError

/-- Python truth of the comparison `v != 0` (note `False == 0` and
`True == 1` in Python; any non-numeric, non-boolean value is `!= 0`). -/
def pyNeZero (v : JVal) : Bool :=
  match v with
  | .num n => n != 0
  | .bool b => b
  | _ => true

mutual

/-- Python `repr` of a parsed JSON value, mutually with the renderings of
array elements and object fields. -/
def pyRepr : JVal → String
  | .null => "None"
  | .bool true => "True"
  | .bool false => "False"
  | .num n => toString n
  | .str s => "\x27" ++ s ++ "\x27"
  | .arr xs => "[" ++ pyReprSeq xs ++ "]"
  | .obj fs => "\x7b" ++ pyReprFields fs ++ "\x7d"

/-- Comma-separated reprs of the elements of a JSON array. -/
def pyReprSeq : List JVal → String
  | [] => ""
  | [x] => pyRepr x
  | x :: xs => pyRepr x ++ ", " ++ pyReprSeq xs

/-- Comma-separated reprs of the fields of a JSON object. -/
def pyReprFields : List (String × JVal) → String
  | [] => ""
  | [(k, v)] => "\x27" ++ k ++ "\x27: " ++ pyRepr v
  | (k, v) :: fs => "\x27" ++ k ++ "\x27: " ++ pyRepr v ++ ", " ++ pyReprFields fs

end

/-- Python `str(v)` as used by `"%s" % v`: identical to `repr` except that a
string is rendered without quotes (so `str(None)` is `"None"`). -/
def pyFormatS (v : JVal) : String :=
  match v with
  | .str s => s
  | _ => pyRepr v

/-- Digit accumulator for `int()`: consumes decimal digits, `none` when a
non-digit appears or no digit was ever seen. -/
def parseDigits : List Char → Option Nat → Option Nat
  | [], acc => acc
  | c :: rest, acc =>
    if c.isDigit then parseDigits rest (some ((acc.getD 0) * 10 + (c.toNat - 48)))
    else none

/-- Python `int(s)` on a string: an optional sign followed by decimal digits;
anything else raises ValueError. -/
def pyParseInt (s : String) : Except PyErr Int :=
  match s.toList with
  | '-' :: rest =>
    match parseDigits rest none with
    | some n => .ok (-(n : Int))
    | none => .error .valueError
  | '+' :: rest =>
    match parseDigits rest none with
    | some n => .ok (n : Int)
    | none => .error .valueError
  | cs =>
    match parseDigits cs none with
    | some n => .ok (n : Int)
    | none => .error .valueError
/-- The single HTTP request a call to the transport function issues: endpoint
URL, the `params` mapping (query string for GET, body for POST), the value
placed in the Cookie header (`none` when no session cookie exists yet), and
the method string. -/
structure HttpRequest where
  url : String
  params : JVal
  cookie : Option String
  method : String

/-- The raw response the underlying HTTP stack hands back: numeric status
code, the stack's ok judgment (`resp.ok`), the reason phrase, the header
mapping, and the body. -/
structure HttpResponse where
  status_code : Int
  ok : Bool
  reason : String
  headers : List (String × String)
  content : Body

/-- Header lookup, `response.headers.get(key)` without a hit giving `none`. -/
def headersGet : List (String × String) → String → Option String
  | [], _ => none
  | (k, v) :: rest, key => if k = key then some v else headersGet rest key

/-- A network oracle: the vendor response to each possible request. -/
def Net : Type := HttpRequest → HttpResponse

/-- The module-level transport function `request(url, params, cookie=None,
method="GET")`: dispatches on the method string (a method outside GET/POST
makes the dispatch dictionary produce `None`, whose call raises TypeError
before any request is issued), issues exactly one HTTP call, returns the raw
response when `resp.ok` holds and otherwise raises `Exception(resp.reason)`.
The second component is the list of requests actually issued. -/
def request (net : Net) (url : String) (params : JVal) (cookie : Option String)
    (method : String) : Except PyErr HttpResponse × List HttpRequest :=
  if method = "GET" ∨ method = "POST" then
    let req : HttpRequest := ⟨url, params, cookie, method⟩
    let resp := net req
    if resp.ok then (.ok resp, [req]) else (.error (.exc [.str resp.reason]), [req])
  else
    (.error .typeError, [])

/-- The `Dropcam` account object: credentials and the session cookie slot,
`None` until `login` stores the composed `website_2=...` value. -/
structure Dropcam where
  username : String
  password : String
  cookie : Option String

def Dropcam.API_BASE : String := "https://www.dropcam.com"

def Dropcam.NEXUS_BASE : String := "https://nexusapi.dropcam.com"

def Dropcam.API_PATH : String := "api"

def Dropcam.LOGIN_PATH : String :=
  Dropcam.API_BASE ++ "/" ++ Dropcam.API_PATH ++ "/" ++ "login.login"

def Dropcam.CAMERAS_GET_VISIBLE : String :=
  Dropcam.API_BASE ++ "/" ++ Dropcam.API_PATH ++ "/" ++ "cameras.get_visible"

def Dropcam.CAMERAS_GET_IMAGE_PATH : String :=
  Dropcam.NEXUS_BASE ++ "/" ++ "get_image"

def Dropcam.EVENT_PATH : String :=
  Dropcam.NEXUS_BASE ++ "/" ++ "get_cuepoint"

def Dropcam.PROPERTIES_PATH : String :=
  Dropcam.API_BASE ++ "/" ++ "app/cameras/properties"

/-- A `Camera` object: the back-reference to the owning account installed by
`__init__`, plus the listing-payload fields merged verbatim into the object
dictionary by `self.__dict__.update(params)`. -/
structure Camera where
  dropcam : Dropcam
  attrs : List (String × JVal)

/-- `Camera.__init__`: merging a non-dictionary `params` into `__dict__`
raises TypeError; a dictionary becomes the attribute mapping. -/
def Camera.init (d : Dropcam) (params : JVal) : Except PyErr Camera :=
  match params with
  | .obj fields => .ok ⟨d, fields⟩
  | _ => .error .typeError

/-- Python attribute access `camera.name` on the merged dictionary: the
stored value, or AttributeError when the listing payload had no such field. -/
def Camera.getattr (c : Camera) (name : String) : Except PyErr JVal :=
  match c.attrs.lookup name with
  | some v => .ok v
  | none => .error .attributeError

/-- An `Event` object: back-reference to the owning camera plus the payload
item's fields merged verbatim. -/
structure Event where
  camera : Camera
  attrs : List (String × JVal)
/-- The body of the POST issued by `Dropcam.login`. -/
def loginParams (self : Dropcam) : JVal :=
  .obj [("username", .str self.username), ("password", .str self.password)]

/-- The single request `Dropcam.login` issues (no cookie yet, POST). -/
def loginRequest (self : Dropcam) : HttpRequest :=
  ⟨Dropcam.LOGIN_PATH, loginParams self, none, "POST"⟩

/-- `Dropcam.login`: POSTs the credentials, parses the JSON body, reads
`response.get("items")[0].get("session_token")` and stores the cookie
`"website_2=%s" % token` on the account. Returns the raised error or unit,
the account after the call, and the requests issued. -/
def login (net : Net) (self : Dropcam) :
    Except PyErr Unit × Dropcam × List HttpRequest :=
  match request net Dropcam.LOGIN_PATH (loginParams self) none "POST" with
  | (.error e, tr) => (.error e, self, tr)
  | (.ok resp, tr) =>
    match jsonLoads resp.content with
    | .error e => (.error e, self, tr)
    | .ok payload =>
      match pyGet payload "items" with
      | .error e => (.error e, self, tr)
      | .ok itemsV =>
        match pySubscript itemsV 0 with
        | .error e => (.error e, self, tr)
        | .ok first =>
          match pyGet first "session_token" with
          | .error e => (.error e, self, tr)
          | .ok tok =>
            (.ok (), { self with cookie := some ("website_2=" ++ pyFormatS tok) }, tr)

/-- The single request `Dropcam.cameras` issues. -/
def camerasRequest (self : Dropcam) : HttpRequest :=
  ⟨Dropcam.CAMERAS_GET_VISIBLE, .obj [("group_cameras", .bool true)],
    self.cookie, "GET"⟩

/-- The inner loop of `Dropcam.cameras`: one `Camera(self, params)` per
entry of a group's owned list, in order, stopping at the first error. -/
def initCameras (d : Dropcam) : List JVal → Except PyErr (List Camera)
  | [] => .ok []
  | p :: ps =>
    match Camera.init d p with
    | .error e => .error e
    | .ok c =>
      match initCameras d ps with
      | .error e => .error e
      | .ok cs => .ok (c :: cs)

/-- The nested loop of `Dropcam.cameras`: for each group item, iterate
`item.get("owned")` and construct a `Camera` from each entry, appending in
vendor order. -/
def camerasLoop (d : Dropcam) : List JVal → Except PyErr (List Camera)
  | [] => .ok []
  | item :: rest =>
    match pyGet item "owned" with
    | .error e => .error e
    | .ok ownedV =>
      match pyIter ownedV with
      | .error e => .error e
      | .ok owned =>
        match initCameras d owned with
        | .error e => .error e
        | .ok cams =>
          match camerasLoop d rest with
          | .error e => .error e
          | .ok more => .ok (cams ++ more)

/-- `Dropcam.cameras`: GETs the visible-cameras listing with
`group_cameras=True` under the session cookie, raises
`Exception(status, status_detail)` when the payload's vendor status is not 0,
and otherwise flattens `items[*]["owned"]` into `Camera` objects in vendor
order with no deduplication. -/
def cameras (net : Net) (self : Dropcam) :
    Except PyErr (List Camera) × List HttpRequest :=
  match request net Dropcam.CAMERAS_GET_VISIBLE
      (.obj [("group_cameras", .bool true)]) self.cookie "GET" with
  | (.error e, tr) => (.error e, tr)
  | (.ok resp, tr) =>
    match jsonLoads resp.content with
    | .error e => (.error e, tr)
    | .ok payload =>
      match pyGet payload "status" with
      | .error e => (.error e, tr)
      | .ok status =>
        if pyNeZero status then
          match pyGet payload "status_detail" with
          | .error e => (.error e, tr)
          | .ok detail => (.error (.exc [status, detail]), tr)
        else
          match pyGet payload "items" with
          | .error e => (.error e, tr)
          | .ok itemsV =>
            match pyIter itemsV with
            | .error e => (.error e, tr)
            | .ok items =>
              match camerasLoop self items with
              | .error e => (.error e, tr)
              | .ok cams => (.ok cams, tr)

/-- The single request `Camera.set_property` issues for a camera whose uuid
attribute is the string `u`. -/
def propertiesRequest (self : Camera) (u : String) (name : String)
    (value : JVal) : HttpRequest :=
  ⟨Dropcam.PROPERTIES_PATH ++ "/" ++ u,
    .obj [("camera_uuid", .str u), ("name", .str name), ("value", value)],
    self.dropcam.cookie, "POST"⟩

/-- `Camera.set_property`: builds the per-camera properties URL by joining
the properties path with `self.uuid` (a non-string uuid makes the join raise
TypeError), POSTs `{camera_uuid, name, value}` under the owning account's
cookie, and returns nothing. The method never assigns to `self`, so the
camera after the call is returned unchanged by the translation of its
statements. -/
def set_property (net : Net) (self : Camera) (name : String) (value : JVal) :
    (Except PyErr Unit × List HttpRequest) × Camera :=
  let r : Except PyErr Unit × List HttpRequest :=
    match Camera.getattr self "uuid" with
    | .error e => (.error e, [])
    | .ok uuidV =>
      match uuidV with
      | .str u =>
        match request net (Dropcam.PROPERTIES_PATH ++ "/" ++ u)
            (.obj [("camera_uuid", .str u), ("name", .str name),
              ("value", value)]) self.dropcam.cookie "POST" with
        | (.error e, tr) => (.error e, tr)
        | (.ok _, tr) => (.ok (), tr)
      | _ => (.error .typeError, [])
  (r, self)
/-- The single request `Camera.events` issues for a camera whose uuid
attribute is `uuidV`, with defaulted end time already resolved. -/
def eventsRequest (self : Camera) (uuidV : JVal) (start endTime : Int) :
    HttpRequest :=
  ⟨Dropcam.EVENT_PATH,
    .obj [("uuid", uuidV), ("start_time", .num start), ("end_time", .num endTime)],
    self.dropcam.cookie, "GET"⟩

/-- `Camera.events(start, end=None)`: `end` defaults to `int(time.time())`,
passed here as `now`; GETs the cuepoint endpoint and parses the JSON body.
The source then runs `for item in items:` — but `items` is never bound in
the function (only `response` is), so once the body parses the loop raises
`NameError` on the free variable `items` and no `Event` is ever built. -/
def events (net : Net) (self : Camera) (start : Int) (endTime : Option Int)
    (now : Int) : Except PyErr (List Event) × List HttpRequest :=
  let e := match endTime with
    | none => now
    | some t => t
  match Camera.getattr self "uuid" with
  | .error err => (.error err, [])
  | .ok uuidV =>
    match request net Dropcam.EVENT_PATH
        (.obj [("uuid", uuidV), ("start_time", .num start), ("end_time", .num e)])
        self.dropcam.cookie "GET" with
    | (.error err, tr) => (.error err, tr)
    | (.ok resp, tr) =>
      match jsonLoads resp.content with
      | .error err => (.error err, tr)
      | .ok _ => (.error (.nameError "items"), tr)

/-- The `params` dictionary `Camera.get_image` sends: `uuid` and `width`
always; `time` only when `if seconds:` finds a truthy value, i.e. a present,
non-zero number. -/
def imageParams (uuidV : JVal) (width : Int) (seconds : Option Int) : JVal :=
  .obj ([("uuid", uuidV), ("width", .num width)] ++
    match seconds with
    | some s => if s ≠ 0 then [("time", .num s)] else []
    | none => [])

/-- The single request `Camera.get_image` issues for a camera whose uuid
attribute is `uuidV`. -/
def imageRequest (self : Camera) (uuidV : JVal) (width : Int)
    (seconds : Option Int) : HttpRequest :=
  ⟨Dropcam.CAMERAS_GET_IMAGE_PATH, imageParams uuidV width seconds,
    self.dropcam.cookie, "GET"⟩

/-- The message carried by the image-path ConnectionError. -/
def imageUnavailableMsg : String :=
  "Camera image is not available or camera is turned off"

/-- `int(response.headers.get("content-length", 0))`: the parsed header when
present (ValueError on a malformed one), the integer default 0 when absent. -/
def contentLengthOf (headers : List (String × String)) : Except PyErr Int :=
  match headersGet headers "content-length" with
  | none => .ok 0
  | some s => pyParseInt s

/-- `Camera.get_image(width=720, seconds=None)`: GETs the image endpoint
(`time` included only for truthy `seconds`), then — in the source's
short-circuit order — raises the module ConnectionError when the status code
is not exactly 200, or when it is 200 but the content-length header parses
to 0 (or is absent); otherwise returns the raw response. -/
def get_image (net : Net) (self : Camera) (width : Int) (seconds : Option Int) :
    Except PyErr HttpResponse × List HttpRequest :=
  match Camera.getattr self "uuid" with
  | .error e => (.error e, [])
  | .ok uuidV =>
    match request net Dropcam.CAMERAS_GET_IMAGE_PATH
        (imageParams uuidV width seconds) self.dropcam.cookie "GET" with
    | (.error e, tr) => (.error e, tr)
    | (.ok resp, tr) =>
      if resp.status_code ≠ 200 then
        (.error (.connectionError imageUnavailableMsg), tr)
      else
        match contentLengthOf resp.headers with
        | .error e => (.error e, tr)
        | .ok n =>
          if n = 0 then (.error (.connectionError imageUnavailableMsg), tr)
          else (.ok resp, tr)

/-- A file system, mapping a path to the content of the file there. -/
def FileSys : Type := String → Option Body

/-- Writing (or creating) the file at `path` with content `b`. -/
def fsUpdate (fs : FileSys) (path : String) (b : Body) : FileSys :=
  fun p => if p = path then some b else fs p

/-- `Camera.save_image(path, width=720, seconds=None)`: `open(path, "wb")`
first — creating or truncating the file at `path` to empty — then
`get_image`, then one write of `response.content`. An error from `get_image`
propagates with the file already truncated. -/
def save_image (net : Net) (self : Camera) (path : String) (width : Int)
    (seconds : Option Int) (fs : FileSys) :
    Except PyErr Unit × FileSys × List HttpRequest :=
  let fs1 := fsUpdate fs path (Body.raw [])
  match get_image net self width seconds with
  | (.error e, tr) => (.error e, fs1, tr)
  | (.ok resp, tr) => (.ok (), fsUpdate fs1 path resp.content, tr)
/-- Claim C7: for every call to the transport function `request(url, params,
cookie, method)` with a GET or POST method, when the underlying HTTP stack
judges the response ok the raw response object is returned unchanged, and
when the response is not ok `request` raises a generic error carrying exactly
the HTTP reason phrase and nothing else. -/
theorem request_ok_returns_raw_not_ok_raises_reason (net : Net) (url : String)
    (params : JVal) (cookie : Option String) (method : String)
    (hm : method = "GET" ∨ method = "POST") :
    ((net ⟨url, params, cookie, method⟩).ok = true →
      request net url params cookie method =
        (.ok (net ⟨url, params, cookie, method⟩),
          [⟨url, params, cookie, method⟩])) ∧
    ((net ⟨url, params, cookie, method⟩).ok = false →
      request net url params cookie method =
        (.error (.exc [.str (net ⟨url, params, cookie, method⟩).reason]),
          [⟨url, params, cookie, method⟩])) := by
  constructor <;> intro h <;> simp [request, hm, h]

/-- Witness for claim C7 at a 200/OK response and a 500 response. -/
theorem request_ok_returns_raw_not_ok_raises_reason_witness :
    request (fun _ => ⟨200, true, "OK", [], .raw [7]⟩) "u" .null none "GET" =
      (.ok ⟨200, true, "OK", [], .raw [7]⟩, [⟨"u", .null, none, "GET"⟩]) ∧
    request (fun _ => ⟨500, false, "Internal Server Error", [], .raw []⟩)
        "u" .null none "GET" =
      (.error (.exc [.str "Internal Server Error"]),
        [⟨"u", .null, none, "GET"⟩]) :=
  ⟨(request_ok_returns_raw_not_ok_raises_reason
      (fun _ => ⟨200, true, "OK", [], .raw [7]⟩) "u" .null none "GET"
      (Or.inl rfl)).1 rfl,
   (request_ok_returns_raw_not_ok_raises_reason
      (fun _ => ⟨500, false, "Internal Server Error", [], .raw []⟩)
      "u" .null none "GET" (Or.inl rfl)).2 rfl⟩
/-- Claim C8: a `set_property` call leaves every locally stored field of the
`Camera` — the attribute mapping (hence uuid, title, is_online) and the
owning-account back-reference — unchanged, whatever the outcome: the method
body never assigns to the object. -/
theorem set_property_leaves_camera_unchanged (net : Net) (self : Camera)
    (name : String) (value : JVal) :
    (set_property net self name value).2 = self ∧
    ((set_property net self name value).2).attrs = self.attrs ∧
    ((set_property net self name value).2).dropcam = self.dropcam ∧
    Camera.getattr (set_property net self name value).2 "uuid" =
      Camera.getattr self "uuid" ∧
    Camera.getattr (set_property net self name value).2 "title" =
      Camera.getattr self "title" ∧
    Camera.getattr (set_property net self name value).2 "is_online" =
      Camera.getattr self "is_online" :=
  ⟨rfl, rfl, rfl, rfl, rfl, rfl⟩

/-- Claim C6: `set_property(name, value)` issues exactly one POST, whose body
fields are exactly `{camera_uuid, name, value}`, under the owning account's
cookie, to the properties path with the uuid appended; and when the vendor
response is ok it returns unit without raising. -/
theorem set_property_posts_exactly_once (net : Net) (self : Camera)
    (name : String) (value : JVal) (u : String)
    (hu : Camera.getattr self "uuid" = .ok (.str u)) :
    (set_property net self name value).1.2 =
      [propertiesRequest self u name value] ∧
    ((net (propertiesRequest self u name value)).ok = true →
      (set_property net self name value).1.1 = .ok ()) := by
  have e : propertiesRequest self u name value =
      ⟨Dropcam.PROPERTIES_PATH ++ "/" ++ u,
        .obj [("camera_uuid", .str u), ("name", .str name), ("value", value)],
        self.dropcam.cookie, "POST"⟩ := rfl
  constructor
  · cases h : (net (propertiesRequest self u name value)).ok <;>
      rw [e] at h <;> simp [set_property, hu, request, h, e]
  · intro h
    rw [e] at h
    simp [set_property, hu, request, h, e]
/-- Witness for claim C6: a concrete camera, `set_property("streaming.enabled",
False)` against a vendor answering 200/OK. -/
theorem set_property_posts_exactly_once_witness :
    (set_property (fun _ => ⟨200, true, "OK", [], .raw []⟩)
        ⟨⟨"alice", "pw", some "website_2=tok"⟩, [("uuid", .str "cam-1")]⟩
        "streaming.enabled" (.bool false)).1.2 =
      [propertiesRequest
        ⟨⟨"alice", "pw", some "website_2=tok"⟩, [("uuid", .str "cam-1")]⟩
        "cam-1" "streaming.enabled" (.bool false)] ∧
    (set_property (fun _ => ⟨200, true, "OK", [], .raw []⟩)
        ⟨⟨"alice", "pw", some "website_2=tok"⟩, [("uuid", .str "cam-1")]⟩
        "streaming.enabled" (.bool false)).1.1 = .ok () := by
  have t := set_property_posts_exactly_once
    (fun _ => ⟨200, true, "OK", [], .raw []⟩)
    ⟨⟨"alice", "pw", some "website_2=tok"⟩, [("uuid", .str "cam-1")]⟩
    "streaming.enabled" (.bool false) "cam-1" (by rfl)
  exact ⟨t.1, t.2 rfl⟩
/-- Claim C2: `get_image` returns the raw response exactly when the HTTP
status code is 200 and the content-length header parses to a positive
integer; it raises the module ConnectionError when the status is 200 but
content-length is 0 or absent (`contentLengthOf` yields 0 in both cases);
and a response the HTTP stack judges not ok (e.g. a 500) surfaces as the
transport error `Exception(reason)` raised inside `request`, not as the
connectivity error. -/
theorem get_image_validates_status_and_length (net : Net) (self : Camera)
    (width : Int) (seconds : Option Int) (uuidV : JVal)
    (hu : Camera.getattr self "uuid" = .ok uuidV) :
    ((net (imageRequest self uuidV width seconds)).ok = true →
      (net (imageRequest self uuidV width seconds)).status_code = 200 →
      ∀ n : Int,
        contentLengthOf (net (imageRequest self uuidV width seconds)).headers =
          .ok n →
        0 < n →
        get_image net self width seconds =
          (.ok (net (imageRequest self uuidV width seconds)),
            [imageRequest self uuidV width seconds])) ∧
    ((net (imageRequest self uuidV width seconds)).ok = true →
      (net (imageRequest self uuidV width seconds)).status_code = 200 →
      contentLengthOf (net (imageRequest self uuidV width seconds)).headers =
        .ok 0 →
      get_image net self width seconds =
        (.error (.connectionError imageUnavailableMsg),
          [imageRequest self uuidV width seconds])) ∧
    ((net (imageRequest self uuidV width seconds)).ok = false →
      get_image net self width seconds =
        (.error (.exc [.str (net (imageRequest self uuidV width seconds)).reason]),
          [imageRequest self uuidV width seconds])) := by
  have e : imageRequest self uuidV width seconds =
      ⟨Dropcam.CAMERAS_GET_IMAGE_PATH, imageParams uuidV width seconds,
        self.dropcam.cookie, "GET"⟩ := rfl
  refine ⟨?_, ?_, ?_⟩
  · intro hok hst n hcl hpos
    rw [e] at hok hst hcl
    have hne : ¬ n = 0 := by omega
    simp [get_image, hu, request, e, hok, hst, hcl, hne]
  · intro hok hst hcl
    rw [e] at hok hst hcl
    simp [get_image, hu, request, e, hok, hst, hcl]
  · intro hok
    rw [e] at hok
    simp [get_image, hu, request, e, hok]

/-- Witness for claim C2: one camera against three vendor responses — 200
with content-length 3, 200 with the header absent, and a 500. -/
theorem get_image_validates_status_and_length_witness :
    get_image (fun _ => ⟨200, true, "OK", [("content-length", "3")], .raw [9, 9, 9]⟩)
        ⟨⟨"alice", "pw", some "website_2=tok"⟩, [("uuid", .str "cam-1")]⟩ 720 none =
      (.ok ⟨200, true, "OK", [("content-length", "3")], .raw [9, 9, 9]⟩,
        [imageRequest ⟨⟨"alice", "pw", some "website_2=tok"⟩,
          [("uuid", .str "cam-1")]⟩ (.str "cam-1") 720 none]) ∧
    get_image (fun _ => ⟨200, true, "OK", [], .raw []⟩)
        ⟨⟨"alice", "pw", some "website_2=tok"⟩, [("uuid", .str "cam-1")]⟩ 720 none =
      (.error (.connectionError imageUnavailableMsg),
        [imageRequest ⟨⟨"alice", "pw", some "website_2=tok"⟩,
          [("uuid", .str "cam-1")]⟩ (.str "cam-1") 720 none]) ∧
    get_image (fun _ => ⟨500, false, "Internal Server Error", [], .raw []⟩)
        ⟨⟨"alice", "pw", some "website_2=tok"⟩, [("uuid", .str "cam-1")]⟩ 720 none =
      (.error (.exc [.str "Internal Server Error"]),
        [imageRequest ⟨⟨"alice", "pw", some "website_2=tok"⟩,
          [("uuid", .str "cam-1")]⟩ (.str "cam-1") 720 none]) := by
  refine ⟨?_, ?_, ?_⟩
  · exact (get_image_validates_status_and_length
      (fun _ => ⟨200, true, "OK", [("content-length", "3")], .raw [9, 9, 9]⟩)
      ⟨⟨"alice", "pw", some "website_2=tok"⟩, [("uuid", .str "cam-1")]⟩
      720 none (.str "cam-1") (by rfl)).1 rfl rfl 3 (by rfl) (by decide)
  · exact (get_image_validates_status_and_length
      (fun _ => ⟨200, true, "OK", [], .raw []⟩)
      ⟨⟨"alice", "pw", some "website_2=tok"⟩, [("uuid", .str "cam-1")]⟩
      720 none (.str "cam-1") (by rfl)).2.1 rfl rfl (by rfl)
  · exact (get_image_validates_status_and_length
      (fun _ => ⟨500, false, "Internal Server Error", [], .raw []⟩)
      ⟨⟨"alice", "pw", some "website_2=tok"⟩, [("uuid", .str "cam-1")]⟩
      720 none (.str "cam-1") (by rfl)).2.2 rfl
/-- Claim C10: calling `get_image` (and hence `save_image`) with `seconds`
equal to 0 behaves exactly as if `seconds` were omitted — `if seconds:` is
false for 0 — so the `time` parameter is absent and the request asks for the
most recent frame; `time` is sent exactly when `seconds` is a present,
non-zero value. -/
theorem get_image_seconds_zero_is_omitted (net : Net) (self : Camera)
    (path : String) (width : Int) (fs : FileSys) (uuidV : JVal) :
    imageParams uuidV width (some 0) = imageParams uuidV width none ∧
    imageParams uuidV width none =
      .obj [("uuid", uuidV), ("width", .num width)] ∧
    (∀ s : Int, s ≠ 0 → imageParams uuidV width (some s) =
      .obj [("uuid", uuidV), ("width", .num width), ("time", .num s)]) ∧
    get_image net self width (some 0) = get_image net self width none ∧
    save_image net self path width (some 0) fs =
      save_image net self path width none fs := by
  have h1 : imageParams uuidV width (some 0) = imageParams uuidV width none := by
    simp [imageParams]
  have h2 : ∀ (v : JVal), imageParams v width (some 0) = imageParams v width none := by
    intro v; simp [imageParams]
  have hg : get_image net self width (some 0) = get_image net self width none := by
    cases h : Camera.getattr self "uuid" with
    | error e => simp [get_image, h]
    | ok v => simp only [get_image, h, h2 v]
  refine ⟨h1, by simp [imageParams], ?_, hg, ?_⟩
  · intro s hs
    simp [imageParams, hs]
  · simp [save_image, hg]

/-- Witness for claim C10: a concrete camera queried with seconds 0, omitted,
and 5. -/
theorem get_image_seconds_zero_is_omitted_witness :
    imageParams (.str "cam-1") 720 (some 0) = imageParams (.str "cam-1") 720 none ∧
    imageParams (.str "cam-1") 720 (some 5) =
      .obj [("uuid", .str "cam-1"), ("width", .num 720), ("time", .num 5)] ∧
    get_image (fun _ => ⟨200, true, "OK", [("content-length", "3")], .raw [9, 9, 9]⟩)
        ⟨⟨"alice", "pw", some "website_2=tok"⟩, [("uuid", .str "cam-1")]⟩
        720 (some 0) =
      get_image (fun _ => ⟨200, true, "OK", [("content-length", "3")], .raw [9, 9, 9]⟩)
        ⟨⟨"alice", "pw", some "website_2=tok"⟩, [("uuid", .str "cam-1")]⟩
        720 none := by
  have t := get_image_seconds_zero_is_omitted
    (fun _ => ⟨200, true, "OK", [("content-length", "3")], .raw [9, 9, 9]⟩)
    ⟨⟨"alice", "pw", some "website_2=tok"⟩, [("uuid", .str "cam-1")]⟩
    "out.jpg" 720 (fun _ => none) (.str "cam-1")
  exact ⟨t.1, t.2.2.1 5 (by decide), t.2.2.2.1⟩
/-- Claim C5: when the inner `get_image` succeeds, `save_image(path, ...)`
returns successfully and the file at `path` holds exactly the response body
(any previous file at `path` is overwritten, every other path untouched). -/
theorem save_image_writes_exact_body (net : Net) (self : Camera)
    (path : String) (width : Int) (seconds : Option Int) (fs : FileSys)
    (resp : HttpResponse)
    (h : (get_image net self width seconds).1 = .ok resp) :
    (save_image net self path width seconds fs).1 = .ok () ∧
    (save_image net self path width seconds fs).2.1 path = some resp.content ∧
    (∀ q, q ≠ path → (save_image net self path width seconds fs).2.1 q = fs q) := by
  cases hgi : get_image net self width seconds with
  | mk r tr =>
    rw [hgi] at h
    simp only at h
    subst h
    refine ⟨?_, ?_, ?_⟩
    · simp [save_image, hgi]
    · simp [save_image, hgi, fsUpdate]
    · intro q hq
      simp [save_image, hgi, fsUpdate, hq]
/-- Witness for claim C5: a mock image body of three bytes round-trips into
the file. -/
theorem save_image_writes_exact_body_witness :
    (save_image (fun _ => ⟨200, true, "OK", [("content-length", "3")], .raw [9, 9, 9]⟩)
        ⟨⟨"alice", "pw", some "website_2=tok"⟩, [("uuid", .str "cam-1")]⟩
        "out.jpg" 720 none (fun _ => none)).1 = .ok () ∧
    (save_image (fun _ => ⟨200, true, "OK", [("content-length", "3")], .raw [9, 9, 9]⟩)
        ⟨⟨"alice", "pw", some "website_2=tok"⟩, [("uuid", .str "cam-1")]⟩
        "out.jpg" 720 none (fun _ => none)).2.1 "out.jpg" = some (.raw [9, 9, 9]) := by
  have t := save_image_writes_exact_body
    (fun _ => ⟨200, true, "OK", [("content-length", "3")], .raw [9, 9, 9]⟩)
    ⟨⟨"alice", "pw", some "website_2=tok"⟩, [("uuid", .str "cam-1")]⟩
    "out.jpg" 720 none (fun _ => none)
    ⟨200, true, "OK", [("content-length", "3")], .raw [9, 9, 9]⟩ (by rfl)
  exact ⟨t.1, t.2.1⟩

/-- Claim C9: `save_image` opens and truncates the file at `path` before the
image request, so when the inner `get_image` raises, the error propagates but
the pre-existing file has already been replaced by an empty file; every other
path is untouched. -/
theorem save_image_truncates_before_request (net : Net) (self : Camera)
    (path : String) (width : Int) (seconds : Option Int) (fs : FileSys)
    (err : PyErr)
    (h : (get_image net self width seconds).1 = .error err) :
    (save_image net self path width seconds fs).1 = .error err ∧
    (save_image net self path width seconds fs).2.1 path = some (Body.raw []) ∧
    (∀ q, q ≠ path → (save_image net self path width seconds fs).2.1 q = fs q) := by
  cases hgi : get_image net self width seconds with
  | mk r tr =>
    rw [hgi] at h
    simp only at h
    subst h
    refine ⟨?_, ?_, ?_⟩
    · simp [save_image, hgi]
    · simp [save_image, hgi, fsUpdate]
    · intro q hq
      simp [save_image, hgi, fsUpdate, hq]

/-- Witness for claim C9: an offline camera (200 with no content-length); the
pre-existing two-byte file at the path ends up empty while the connectivity
error propagates. -/
theorem save_image_truncates_before_request_witness :
    (fun p => if p = "out.jpg" then some (Body.raw [1, 2]) else none) "out.jpg" =
      some (Body.raw [1, 2]) ∧
    (save_image (fun _ => ⟨200, true, "OK", [], .raw []⟩)
        ⟨⟨"alice", "pw", some "website_2=tok"⟩, [("uuid", .str "cam-1")]⟩
        "out.jpg" 720 none
        (fun p => if p = "out.jpg" then some (Body.raw [1, 2]) else none)).1 =
      .error (.connectionError imageUnavailableMsg) ∧
    (save_image (fun _ => ⟨200, true, "OK", [], .raw []⟩)
        ⟨⟨"alice", "pw", some "website_2=tok"⟩, [("uuid", .str "cam-1")]⟩
        "out.jpg" 720 none
        (fun p => if p = "out.jpg" then some (Body.raw [1, 2]) else none)).2.1
        "out.jpg" = some (Body.raw []) := by
  have t := save_image_truncates_before_request
    (fun _ => ⟨200, true, "OK", [], .raw []⟩)
    ⟨⟨"alice", "pw", some "website_2=tok"⟩, [("uuid", .str "cam-1")]⟩
    "out.jpg" 720 none
    (fun p => if p = "out.jpg" then some (Body.raw [1, 2]) else none)
    (.connectionError imageUnavailableMsg) (by rfl)
  exact ⟨by simp, t.1, t.2.1⟩
/-- `Camera.__init__` over a list of dictionary payload entries succeeds and
keeps the entries in order. -/
theorem initCameras_objs (d : Dropcam) (os : List (List (String × JVal))) :
    initCameras d (os.map JVal.obj) =
      .ok (os.map fun fields => (⟨d, fields⟩ : Camera)) := by
  induction os with
  | nil => rfl
  | cons o os ih => simp [initCameras, Camera.init, ih]

/-- The nested listing loop flattens the groups' owned lists in order when
every group carries an `owned` array of dictionary entries. -/
theorem camerasLoop_flattens (d : Dropcam) (groups : List JVal)
    (owneds : List (List (List (String × JVal))))
    (h : List.Forall₂
      (fun g o => pyGet g "owned" = .ok (.arr (o.map JVal.obj)))
      groups owneds) :
    camerasLoop d groups =
      .ok ((owneds.flatten).map fun fields => (⟨d, fields⟩ : Camera)) := by
  induction h with
  | nil => rfl
  | cons hgo htail ih =>
    simp [camerasLoop, hgo, pyIter, initCameras_objs, ih]
/-- Claim C1: for a camera-listing payload whose vendor status is 0,
`cameras()` returns the flat concatenation of all groups' owned entries as
`Camera` objects, in vendor order with no deduplication, so its length is
the total entry count across groups; for a payload with non-zero status it
raises `Exception(status, status_detail)` carrying that exact code and the
status-detail value. -/
theorem cameras_flattens_groups_or_raises_status (net : Net) (d : Dropcam)
    (payload : JVal) (groups : List JVal)
    (owneds : List (List (List (String × JVal)))) (s : Int) (detail : JVal)
    (hok : (net (camerasRequest d)).ok = true)
    (hbody : (net (camerasRequest d)).content = .json payload) :
    ((pyGet payload "status" = .ok (.num 0)) →
      (pyGet payload "items" = .ok (.arr groups)) →
      List.Forall₂
        (fun g o => pyGet g "owned" = .ok (.arr (o.map JVal.obj)))
        groups owneds →
      cameras net d =
        (.ok ((owneds.flatten).map fun fields => (⟨d, fields⟩ : Camera)),
          [camerasRequest d]) ∧
      ((owneds.flatten).map fun fields => (⟨d, fields⟩ : Camera)).length =
        (owneds.map List.length).sum) ∧
    ((pyGet payload "status" = .ok (.num s)) → s ≠ 0 →
      (pyGet payload "status_detail" = .ok detail) →
      cameras net d =
        (.error (.exc [.num s, detail]), [camerasRequest d])) := by
  have e : camerasRequest d =
      ⟨Dropcam.CAMERAS_GET_VISIBLE, .obj [("group_cameras", .bool true)],
        d.cookie, "GET"⟩ := rfl
  rw [e] at hok hbody
  constructor
  · intro hstatus hitems how
    constructor
    · simp [cameras, request, e, hok, hbody, jsonLoads, hstatus, pyNeZero,
        hitems, pyIter, camerasLoop_flattens d groups owneds how]
    · rw [List.length_map, List.length_flatten]
  · intro hstatus hs hdetail
    simp [cameras, request, e, hok, hbody, jsonLoads, hstatus, pyNeZero, hs,
      hdetail]
/-- Witness for claim C1: a two-group listing (owned lists of sizes 2 and 1)
flattens to three cameras in vendor order, and a status-7 payload raises
`Exception(7, "denied")`. -/
theorem cameras_flattens_groups_or_raises_status_witness :
    cameras
        (fun _ => ⟨200, true, "OK", [],
          .json (.obj [("status", .num 0),
            ("items", .arr [
              .obj [("owned", .arr [.obj [("uuid", .str "a")],
                .obj [("uuid", .str "b")]])],
              .obj [("owned", .arr [.obj [("uuid", .str "c")]])]])])⟩)
        ⟨"alice", "pw", some "website_2=tok"⟩ =
      (.ok [⟨⟨"alice", "pw", some "website_2=tok"⟩, [("uuid", .str "a")]⟩,
            ⟨⟨"alice", "pw", some "website_2=tok"⟩, [("uuid", .str "b")]⟩,
            ⟨⟨"alice", "pw", some "website_2=tok"⟩, [("uuid", .str "c")]⟩],
        [camerasRequest ⟨"alice", "pw", some "website_2=tok"⟩]) ∧
    cameras
        (fun _ => ⟨200, true, "OK", [],
          .json (.obj [("status", .num 7), ("status_detail", .str "denied")])⟩)
        ⟨"alice", "pw", some "website_2=tok"⟩ =
      (.error (.exc [.num 7, .str "denied"]),
        [camerasRequest ⟨"alice", "pw", some "website_2=tok"⟩]) := by
  constructor
  · have t := (cameras_flattens_groups_or_raises_status
      (fun _ => ⟨200, true, "OK", [],
        .json (.obj [("status", .num 0),
          ("items", .arr [
            .obj [("owned", .arr [.obj [("uuid", .str "a")],
              .obj [("uuid", .str "b")]])],
            .obj [("owned", .arr [.obj [("uuid", .str "c")]])]])])⟩)
      ⟨"alice", "pw", some "website_2=tok"⟩
      (.obj [("status", .num 0),
        ("items", .arr [
          .obj [("owned", .arr [.obj [("uuid", .str "a")],
            .obj [("uuid", .str "b")]])],
          .obj [("owned", .arr [.obj [("uuid", .str "c")]])]])])
      [.obj [("owned", .arr [.obj [("uuid", .str "a")],
          .obj [("uuid", .str "b")]])],
        .obj [("owned", .arr [.obj [("uuid", .str "c")]])]]
      [[[("uuid", .str "a")], [("uuid", .str "b")]], [[("uuid", .str "c")]]]
      1 .null rfl rfl).1 rfl rfl
      (List.Forall₂.cons rfl (List.Forall₂.cons rfl List.Forall₂.nil))
    exact t.1
  · exact (cameras_flattens_groups_or_raises_status
      (fun _ => ⟨200, true, "OK", [],
        .json (.obj [("status", .num 7), ("status_detail", .str "denied")])⟩)
      ⟨"alice", "pw", some "website_2=tok"⟩
      (.obj [("status", .num 7), ("status_detail", .str "denied")])
      [] [] 7 (.str "denied") rfl rfl).2 rfl (by decide) rfl
/-- Claim C3 (code bug): whatever events-query payload the vendor returns,
`events(start, end)` never builds an `Event` list: after parsing the body the
source iterates the unbound name `items` (only `response` was assigned), so
the call raises `NameError` — against the documented intent of returning one
`Event` per payload item. The issued request still shows `end` defaulting to
the call-time clock `now` when omitted. -/
theorem events_raises_name_error_on_any_payload (net : Net) (self : Camera)
    (start : Int) (endT : Option Int) (now : Int) (uuidV : JVal)
    (payload : JVal)
    (hu : Camera.getattr self "uuid" = .ok uuidV)
    (hok : (net (eventsRequest self uuidV start (endT.getD now))).ok = true)
    (hbody : (net (eventsRequest self uuidV start (endT.getD now))).content =
      .json payload) :
    events net self start endT now =
      (.error (.nameError "items"),
        [eventsRequest self uuidV start (endT.getD now)]) := by
  have e : eventsRequest self uuidV start (endT.getD now) =
      ⟨Dropcam.EVENT_PATH,
        .obj [("uuid", uuidV), ("start_time", .num start),
          ("end_time", .num (endT.getD now))],
        self.dropcam.cookie, "GET"⟩ := rfl
  rw [e] at hok hbody
  cases endT with
  | none =>
    simp only [Option.getD] at hok hbody
    simp [events, hu, request, e, hok, hbody, jsonLoads, Option.getD,
      eventsRequest]
  | some t =>
    simp only [Option.getD] at hok hbody
    simp [events, hu, request, e, hok, hbody, jsonLoads, Option.getD,
      eventsRequest]

/-- Witness for claim C3: a concrete query with `end` omitted over a payload
with two items still raises `NameError("items")`, and the request carries
`end_time = now`. -/
theorem events_raises_name_error_on_any_payload_witness :
    events
        (fun _ => ⟨200, true, "OK", [],
          .json (.obj [("items", .arr [.obj [("time", .num 3)],
            .obj [("time", .num 4)]])])⟩)
        ⟨⟨"alice", "pw", some "website_2=tok"⟩, [("uuid", .str "cam-1")]⟩
        0 none 100 =
      (.error (.nameError "items"),
        [eventsRequest
          ⟨⟨"alice", "pw", some "website_2=tok"⟩, [("uuid", .str "cam-1")]⟩
          (.str "cam-1") 0 100]) :=
  events_raises_name_error_on_any_payload
    (fun _ => ⟨200, true, "OK", [],
      .json (.obj [("items", .arr [.obj [("time", .num 3)],
        .obj [("time", .num 4)]])])⟩)
    ⟨⟨"alice", "pw", some "website_2=tok"⟩, [("uuid", .str "cam-1")]⟩
    0 none 100 (.str "cam-1")
    (.obj [("items", .arr [.obj [("time", .num 3)], .obj [("time", .num 4)]])])
    (by rfl) rfl rfl
/-- Counterexample to claim C4: a vendor-accepted login whose first item has
no session token. The claim says login raises and leaves the cookie unset
whenever the expected JSON shape is absent; instead the call succeeds and the
cookie is set to the string "website_2=None" (the formatted Python None). -/
theorem login_missing_token_sets_cookie_none_string :
    login (fun _ => ⟨200, true, "OK", [], .json (.obj [("items", .arr [.obj []])])⟩)
        ⟨"alice", "pw", none⟩ =
      (.ok (), ⟨"alice", "pw", some "website_2=None"⟩,
        [loginRequest ⟨"alice", "pw", none⟩]) := by
  simp [login, request, loginRequest, loginParams, jsonLoads, pyGet, alistFind,
    pySubscript, pyFormatS, pyRepr]

/-- Claim C4 as amended: when the vendor accepts the credentials and the
first item of the items list carries a session token string `tok`, `login()`
sets the cookie to the non-empty string `"website_2=" ++ tok`; when the
vendor rejects the credentials (transport error), or the items list is
absent/null, or it is empty, `login()` raises and the cookie is left as it
was; but when the first item merely lacks a session token, `login()` does
not raise and stores the cookie "website_2=None". -/
theorem login_sets_cookie_or_raises (net : Net) (d : Dropcam) (tok : String)
    (payload first : JVal) (rest : List JVal) :
    ((net (loginRequest d)).ok = true →
      (net (loginRequest d)).content = .json payload →
      pyGet payload "items" = .ok (.arr (first :: rest)) →
      pyGet first "session_token" = .ok (.str tok) →
      login net d =
        (.ok (), { d with cookie := some ("website_2=" ++ tok) },
          [loginRequest d]) ∧
      ("website_2=" ++ tok) ≠ "") ∧
    ((net (loginRequest d)).ok = false →
      login net d =
        (.error (.exc [.str (net (loginRequest d)).reason]), d,
          [loginRequest d])) ∧
    ((net (loginRequest d)).ok = true →
      (net (loginRequest d)).content = .json payload →
      pyGet payload "items" = .ok .null →
      login net d = (.error .typeError, d, [loginRequest d])) ∧
    ((net (loginRequest d)).ok = true →
      (net (loginRequest d)).content = .json payload →
      pyGet payload "items" = .ok (.arr []) →
      login net d = (.error .indexError, d, [loginRequest d])) ∧
    ((net (loginRequest d)).ok = true →
      (net (loginRequest d)).content = .json payload →
      pyGet payload "items" = .ok (.arr (first :: rest)) →
      pyGet first "session_token" = .ok .null →
      login net d =
        (.ok (), { d with cookie := some "website_2=None" },
          [loginRequest d])) := by
  have e : loginRequest d =
      ⟨Dropcam.LOGIN_PATH, loginParams d, none, "POST"⟩ := rfl
  refine ⟨?_, ?_, ?_, ?_, ?_⟩
  · intro hok hbody hitems htok
    rw [e] at hok hbody
    constructor
    · simp [login, request, e, hok, hbody, jsonLoads, hitems, pySubscript,
        htok, pyFormatS]
    · intro hemp
      have hlen := congrArg String.length hemp
      rw [String.length_append] at hlen
      have h10 : ("website_2=" : String).length = 10 := rfl
      have h0 : ("" : String).length = 0 := rfl
      rw [h10, h0] at hlen
      omega
  · intro hok
    rw [e] at hok
    simp [login, request, e, hok]
  · intro hok hbody hitems
    rw [e] at hok hbody
    simp [login, request, e, hok, hbody, jsonLoads, hitems, pySubscript]
  · intro hok hbody hitems
    rw [e] at hok hbody
    simp [login, request, e, hok, hbody, jsonLoads, hitems, pySubscript]
  · intro hok hbody hitems htok
    rw [e] at hok hbody
    simp [login, request, e, hok, hbody, jsonLoads, hitems, pySubscript,
      htok, pyFormatS, pyRepr]
/-- Witness for claim C4 (amended): concrete logins — accepted with a token,
rejected by transport, items null, items empty, and first item lacking the
token. -/
theorem login_sets_cookie_or_raises_witness :
    login (fun _ => ⟨200, true, "OK", [],
        .json (.obj [("items", .arr [.obj [("session_token", .str "tok123")]])])⟩)
        ⟨"alice", "pw", none⟩ =
      (.ok (), ⟨"alice", "pw", some "website_2=tok123"⟩,
        [loginRequest ⟨"alice", "pw", none⟩]) ∧
    ("website_2=tok123" : String) ≠ "" ∧
    login (fun _ => ⟨401, false, "Unauthorized", [], .raw []⟩)
        ⟨"alice", "pw", none⟩ =
      (.error (.exc [.str "Unauthorized"]), ⟨"alice", "pw", none⟩,
        [loginRequest ⟨"alice", "pw", none⟩]) ∧
    login (fun _ => ⟨200, true, "OK", [], .json (.obj [("items", .null)])⟩)
        ⟨"alice", "pw", none⟩ =
      (.error .typeError, ⟨"alice", "pw", none⟩,
        [loginRequest ⟨"alice", "pw", none⟩]) ∧
    login (fun _ => ⟨200, true, "OK", [], .json (.obj [("items", .arr [])])⟩)
        ⟨"alice", "pw", none⟩ =
      (.error .indexError, ⟨"alice", "pw", none⟩,
        [loginRequest ⟨"alice", "pw", none⟩]) := by
  refine ⟨?_, ?_, ?_, ?_, ?_⟩
  · exact ((login_sets_cookie_or_raises
      (fun _ => ⟨200, true, "OK", [],
        .json (.obj [("items", .arr [.obj [("session_token", .str "tok123")]])])⟩)
      ⟨"alice", "pw", none⟩ "tok123"
      (.obj [("items", .arr [.obj [("session_token", .str "tok123")]])])
      (.obj [("session_token", .str "tok123")]) []).1 rfl rfl rfl rfl).1
  · exact ((login_sets_cookie_or_raises
      (fun _ => ⟨200, true, "OK", [],
        .json (.obj [("items", .arr [.obj [("session_token", .str "tok123")]])])⟩)
      ⟨"alice", "pw", none⟩ "tok123"
      (.obj [("items", .arr [.obj [("session_token", .str "tok123")]])])
      (.obj [("session_token", .str "tok123")]) []).1 rfl rfl rfl rfl).2
  · exact (login_sets_cookie_or_raises
      (fun _ => ⟨401, false, "Unauthorized", [], .raw []⟩)
      ⟨"alice", "pw", none⟩ "" .null .null []).2.1 rfl
  · exact (login_sets_cookie_or_raises
      (fun _ => ⟨200, true, "OK", [], .json (.obj [("items", .null)])⟩)
      ⟨"alice", "pw", none⟩ "" (.obj [("items", .null)]) .null []).2.2.1
      rfl rfl rfl
  · exact (login_sets_cookie_or_raises
      (fun _ => ⟨200, true, "OK", [], .json (.obj [("items", .arr [])])⟩)
      ⟨"alice", "pw", none⟩ "" (.obj [("items", .arr [])]) .null []).2.2.2.1
      rfl rfl rfl
